import Mathlib

/-
Shallow embedding of the request-orchestration core of the `eve_tools` EVE
Online ESI client, together with proofs about its retry engine, error policy,
admission checker, conditional (ETag) cache, request composer, token store,
cache keys and session record.

Each definition is translated from the Python source file named in its doc
comment.  Python values that matter to the claims (None, int, str, bool,
callables, lists) are modelled by the `PyVal` inductive; Python dicts that
carry keyword arguments are modelled as association lists in insertion order,
which is exactly the order `pickle.dumps` serialises a dict's items.
-/

deriving instance DecidableEq for Except

namespace EveTools

/-! ### Python value model -/

/-- Model of the Python values handled by the client: `None`, ints, strings,
booleans and callables (identified by qualified name and a hash of their
source, as `eve_tools.data.cache.function_hash` does).  List-valued
arguments, which `make_cache_key` rewrites by `list(set(...))` with
implementation-defined set ordering, are outside this fragment; no claim
involves them. -/
inductive PyVal where
  | vnone
  | int (n : Int)
  | str (s : String)
  | bool (b : Bool)
  | pyfunc (qualname : String) (srcHash : String)
deriving DecidableEq

/-- Python truthiness of a value (`bool(v)`), as used by `if value and value2`
in `__parse_request_keywords_in_query`. -/
def PyVal.truthy : PyVal → Bool
  | .vnone => false
  | .int n => n != 0
  | .str s => s != ""
  | .bool b => b
  | .pyfunc _ _ => true

/-- First-match association-list lookup: `d.get(key)` on a dict `d` modelled
as its items in insertion order. -/
def lookupKey : List (String × PyVal) → String → Option PyVal
  | [], _ => none
  | (k, v) :: rest, s => if k = s then some v else lookupKey rest s

/-- The Python value of `where.pop(key, None)` / `where.get(key)`: `None`
both when the key is absent and when it is present mapping to `None`. -/
def pyGetOrNone (kwd : List (String × PyVal)) (key : String) : PyVal :=
  (lookupKey kwd key).getD .vnone

/-- Whether the keys of an association list are pairwise distinct (a Python
dict always satisfies this); Bool-valued so that concrete instances can be
checked by evaluation. -/
def nodupKeysB : List (String × PyVal) → Bool
  | [] => true
  | p :: rest => (lookupKey rest p.1).isNone && nodupKeysB rest

/-- Two keyword-argument dicts are equal as maps: duplicate-free keys and the
same key/value bindings, irrespective of insertion order. -/
def eqAsMaps (l1 l2 : List (String × PyVal)) : Bool :=
  nodupKeysB l1 && nodupKeysB l2
    && l1.all (fun p => lookupKey l2 p.1 == some p.2)
    && l2.all (fun p => lookupKey l1 p.1 == some p.2)

/-! ### Retry engine (`eve_tools/ESI/utils.py`, `ESIRequestError.wrapper_retry`) -/

/-- `STATUS_RAISE` from `eve_tools/ESI/utils.py` line 24: response statuses
that exhaust the attempt budget immediately. -/
def STATUS_RAISE : List Nat := [400, 404, 420]

/-- The fields of an `ESIResponse` that the retry wrapper inspects: the HTTP
status and the `x-esi-error-limit-remain` header value. -/
structure Resp where
  status : Nat
  error_remain : Int
deriving DecidableEq

/-- Outcome of one transport invocation (`func(_esi_self, ...)` inside
`wrapped_retry`): a response, a `None` return (request blocked with
`raises=False`), an `asyncio` timeout, or a server disconnect. -/
inductive Outcome where
  | resp (status : Nat) (error_remain : Int)
  | blockedNone
  | transportTimeout
  | disconnected
deriving DecidableEq

/-- Final behaviour of `wrapped_retry` as seen by its caller: an exception
propagates, `None` is returned, or a response object is returned. -/
inductive RetryResult where
  | raisedErr
  | returnedNone
  | returnedResp (r : Resp)
deriving DecidableEq

/-- A finished run of `wrapped_retry`: its result, the number of transport
invocations made, and the final value of the shared
`ESIRequestError._global_error_remain[0]` counter. -/
structure RetryRun where
  result : RetryResult
  calls : Nat
  g : Int
deriving DecidableEq

/-- The `if attempts == 0:` disposition block of `wrapped_retry`
(`eve_tools/ESI/utils.py` lines 108-120).  `raises=True` raises the stored
error, `raises=False` returns `None`, and `raises=None` raises when the
shared error budget is at or below 5 and otherwise returns `ret` (the last
response object, or `None` when no response was ever produced). -/
def exhaustDisposition (raises : Option Bool) (g : Int) (ret : Option Resp)
    (calls : Nat) : RetryRun :=
  match raises with
  | some true => ⟨.raisedErr, calls, g⟩
  | some false => ⟨.returnedNone, calls, g⟩
  | none =>
    if g ≤ 5 then ⟨.raisedErr, calls, g⟩
    else
      match ret with
      | some r => ⟨.returnedResp r, calls, g⟩
      | none => ⟨.returnedNone, calls, g⟩

/-- The `while not success and attempts > 0` loop of `wrapped_retry`
(`eve_tools/ESI/utils.py` lines 73-121), by recursion on the remaining
attempt budget.  `outcomes i` is the outcome of the `i`-th transport
invocation, `g` the shared error counter, `calls` the invocations so far.

Branches, in source order:
* a response with status `< 400`: success, the counter is resynchronised to
  `error_remain` and the response is returned;
* a response with status `≥ 400`: the counter is set to `error_remain`,
  `raise_for_status` raises, the handler decrements the budget (to zero for a
  `STATUS_RAISE` status) and decrements the counter;
* a `None` return: the budget is set to zero;
* a timeout: the budget is set to zero and, when `raises is None`, the
  exception is re-raised at once;
* a disconnect: the budget is decremented and, when it reaches zero with
  `raises is None`, the exception is re-raised. -/
def wrapper_retry_loop (raises : Option Bool) (outcomes : Nat → Outcome) :
    Nat → Nat → Int → Nat → RetryRun
  | 0, _, g, calls => ⟨.returnedNone, calls, g⟩
  | k + 1, idx, g, calls =>
    match outcomes idx with
    | .resp s r =>
      if s < 400 then
        ⟨.returnedResp ⟨s, r⟩, calls + 1, r⟩
      else
        if s ∈ STATUS_RAISE ∨ k = 0 then
          exhaustDisposition raises (r - 1) (some ⟨s, r⟩) (calls + 1)
        else
          wrapper_retry_loop raises outcomes k (idx + 1) (r - 1) (calls + 1)
    | .blockedNone =>
      -- `ret = None` sets `attempts = 0`; with `raises=True` the stored
      -- `error` is `None`, so `raise error` still raises (a `TypeError`).
      exhaustDisposition raises g none (calls + 1)
    | .transportTimeout =>
      match raises with
      | none => ⟨.raisedErr, calls + 1, g⟩
      | some true => ⟨.raisedErr, calls + 1, g⟩
      | some false => ⟨.returnedNone, calls + 1, g⟩
    | .disconnected =>
      if k = 0 then
        match raises with
        | none => ⟨.raisedErr, calls + 1, g⟩
        | some true => ⟨.raisedErr, calls + 1, g⟩
        | some false => ⟨.returnedNone, calls + 1, g⟩
      else
        wrapper_retry_loop raises outcomes k (idx + 1) g (calls + 1)

/-- `ESIRequestError.wrapper_retry` applied with attempt budget `attempts`
(default 3) and error policy `raises` to a transport whose successive
outcomes are `outcomes`, starting from shared error counter `g`. -/
def wrapper_retry (raises : Option Bool) (outcomes : Nat → Outcome)
    (attempts : Nat) (g : Int) : RetryRun :=
  wrapper_retry_loop raises outcomes attempts 0 g 0

/-! ### Method validation (`eve_tools/ESI/esi.py`, `ESI.request` and
`ESI.__check_method`) -/

/-- The two errors the method gate can raise: the `NotImplementedError` of
`ESI.request` line 380 (declared type not `get`/`head`) and the `ValueError`
of `ESI.__check_method` lines 555-567 (method mismatch). -/
inductive MethodError where
  | typeNotImplemented
  | unsupportedMethod
deriving DecidableEq

/-- The method gate run by `ESI.request`: first the declared request type
must be `get` or `head` (line 379-380), then `__check_method` accepts an
exact match or `head` where `get` is declared, and rejects anything else. -/
def check_method (declared method : String) : Except MethodError Unit :=
  if ¬(declared = "get" ∨ declared = "head") then .error .typeNotImplemented
  else if declared = method then .ok ()
  else if method = "head" ∧ declared = "get" then .ok ()
  else .error .unsupportedMethod

/-- The prefix of `ESI.request` relevant to claim C7: the method gate runs
before the retry-wrapped transport, so a gate failure propagates with zero
transport invocations and is never retried. -/
def request_pipeline (declared method : String) (raises : Option Bool)
    (outcomes : Nat → Outcome) (attempts : Nat) (g : Int) :
    Except MethodError RetryRun :=
  match check_method declared method with
  | .error e => .error e
  | .ok () => .ok (wrapper_retry raises outcomes attempts g)

/-! ### Request composer (`eve_tools/ESI/parser.py` and `eve_tools/ESI/esi.py`,
`__parse_request_keywords_in_path` / `__parse_request_keywords_in_query`) -/

/-- Composer-level caller mistakes: the `KeyError`s raised by
`__parse_request_keywords_in_path` and `__parse_request_keywords_in_query`. -/
inductive ParamError where
  | missingKey (key : String)
  | duplicateKey (key : String)
deriving DecidableEq

/-- `__parse_request_keywords_in_path` (`eve_tools/ESI/parser.py` lines
228-239, identical in `esi.py` lines 640-651): for the parameter
`character_id`, when an authenticated token supplied a positive character id
`cid` and the caller did not pass `character_id`, the token's id is used;
otherwise the caller's value is popped and its absence (or an explicit
`None`) is a `KeyError`. -/
def parse_request_keywords_in_path (kwd : List (String × PyVal)) (key : String)
    (cid : Int) : Except ParamError PyVal :=
  if key = "character_id" ∧ cid > 0 ∧ (lookupKey kwd "character_id").isNone then
    .ok (.int cid)
  else
    let value := pyGetOrNone kwd key
    if value = .vnone then .error (.missingKey key) else .ok value

/-- The Python value of `value2` in `__parse_request_keywords_in_query`:
`params.get(key)` guarded by `if params:` (a falsy — empty — `params` dict
leaves `value2 = None`). -/
def queryParamsValue (params : List (String × PyVal)) (key : String) : PyVal :=
  if params.isEmpty then .vnone else pyGetOrNone params key

/-- `__parse_request_keywords_in_query` (`eve_tools/ESI/parser.py` lines
241-262, identical in `esi.py` lines 653-674).  `kwd` models the keyword
dict `where`; `params` models `where.get("params")` (the separate `params`
dict, empty when absent).  `default` is the declared default, `.vnone` when
none is declared.  Note the duplicate check `if value and value2` uses
Python truthiness, not presence. -/
def parse_request_keywords_in_query (kwd params : List (String × PyVal))
    (key : String) (required : Bool) (default : PyVal) :
    Except ParamError PyVal :=
  let value := pyGetOrNone kwd key
  let value2 := queryParamsValue params key
  if value.truthy ∧ value2.truthy then .error (.duplicateKey key)
  else if value = .vnone ∧ value2 = .vnone ∧ required ∧ default = .vnone then
    .error (.missingKey key)
  else if value = .vnone ∧ value2 = .vnone then .ok default
  else if value ≠ .vnone then .ok value
  else .ok value2

/-! ### Key/value cache with TTL (`eve_tools/data/cache.py`, `SqliteCache`) -/

/-- One row of a `SqliteCache` table: a value and an absolute expiry time
(seconds).  Keys are kept unhashed in the model; `hash_key` (sha256 of the
pickled key) is injective on distinct keys up to hash collisions. -/
structure CacheEntry (α : Type) where
  value : α
  expires : Int
deriving DecidableEq

/-- `SqliteCache.set`: `INSERT OR REPLACE` of the row for `key` with an
absolute expiry timestamp. -/
def cacheSet {κ α : Type} [DecidableEq κ] (store : List (κ × CacheEntry α))
    (key : κ) (v : α) (expires : Int) : List (κ × CacheEntry α) :=
  (key, ⟨v, expires⟩) :: store.filter (fun p => p.1 ≠ key)

/-- `SqliteCache.get` at time `now`: a stored row is a hit exactly when it
has not expired (`datetime.utcnow() > expires` reports a miss). -/
def cacheGet {κ α : Type} [DecidableEq κ] (store : List (κ × CacheEntry α))
    (now : Int) (key : κ) : Option α :=
  match store.find? (fun p => p.1 = key) with
  | none => none
  | some p => if now > p.2.expires then none else some p.2.value

/-! ### Cache keys (`eve_tools/data/cache.py`, `make_cache_key` and
`function_hash`) -/

/-- `function_hash`: `"esi_function-qualname-sha256(source)"`.  The source
hash is carried abstractly. -/
def function_hash (qualname srcHash : String) : String :=
  "esi_function-" ++ qualname ++ "-" ++ srcHash

/-- The argument rewriting inside `make_cache_key`: a callable argument is
replaced by its `function_hash` string.  (The `list(set(...))` branch for
list arguments is outside this fragment, see `PyVal`.) -/
def normalizeArg : PyVal → PyVal
  | .pyfunc q h => .str (function_hash q h)
  | v => v

/-- `make_cache_key(func, *args, **kwd)` returns the tuple
`(function_hash(func), pickle.dumps(args), pickle.dumps(kwd))`.
`pickle.dumps` is deterministic here and serialises a dict's items in
insertion order, so the pickled positional arguments are modelled by the
rewritten argument list and the pickled keyword dict by the rewritten item
list in insertion order: two keys are equal exactly when those lists are. -/
def make_cache_key (funcQualname funcSrcHash : String) (args : List PyVal)
    (kwd : List (String × PyVal)) : String × List PyVal × List (String × PyVal) :=
  (function_hash funcQualname funcSrcHash,
    args.map normalizeArg,
    kwd.map (fun p => (p.1, normalizeArg p.2)))

/-! ### Request identity (`eve_tools/ESI/metadata.py`, `ESIRequest.rid`) -/

/-- Lexicographic comparison of character lists, used to order keyword names
when sorting a request's argument set. -/
def lexLeB : List Char → List Char → Bool
  | [], _ => true
  | _ :: _, [] => false
  | c :: cs, d :: ds =>
    if c < d then true else if d < c then false else lexLeB cs ds

/-- Ordering of keyword items by name, used to model the sorted argument set
of a request identity. -/
def keyLe (p q : String × PyVal) : Prop := lexLeB p.1.data q.1.data = true

/-- Strict version of `keyLe`; on lists with pairwise-distinct names the two
orders sort identically. -/
def keyLt (p q : String × PyVal) : Prop := keyLe p q ∧ p.1 ≠ q.1

instance : DecidableRel keyLe := fun p q =>
  inferInstanceAs (Decidable (lexLeB p.1.data q.1.data = true))

instance : IsTotal (String × PyVal) keyLe := ⟨by
  intro p q
  show lexLeB p.1.data q.1.data = true ∨ lexLeB q.1.data p.1.data = true
  generalize p.1.data = a
  generalize q.1.data = b
  induction a generalizing b with
  | nil => left; rfl
  | cons c cs ih =>
    cases b with
    | nil => right; rfl
    | cons d ds =>
      rcases lt_trichotomy c d with h | h | h
      · left; simp [lexLeB, h]
      · subst h
        rcases ih ds with h2 | h2
        · left; simp [lexLeB, lt_irrefl, h2]
        · right; simp [lexLeB, lt_irrefl, h2]
      · right; simp [lexLeB, h]⟩

instance : IsTrans (String × PyVal) keyLe := ⟨by
  have key : ∀ (a b c : List Char), lexLeB a b = true → lexLeB b c = true →
      lexLeB a c = true := by
    intro a
    induction a with
    | nil => intro b c _ _; rfl
    | cons x xs ih =>
      intro b c h1 h2
      cases b with
      | nil => simp [lexLeB] at h1
      | cons y ys =>
        cases c with
        | nil => simp [lexLeB] at h2
        | cons z zs =>
          by_cases hxy : x < y
          · by_cases hyz : y < z
            · simp [lexLeB, lt_trans hxy hyz]
            · by_cases hzy : z < y
              · simp [lexLeB, hyz, hzy] at h2
              · have hyzeq : y = z := le_antisymm (le_of_not_lt hzy) (le_of_not_lt hyz)
                subst hyzeq
                simp [lexLeB, hxy]
          · by_cases hyx : y < x
            · simp [lexLeB, hxy, hyx] at h1
            · have hxyeq : x = y := le_antisymm (le_of_not_lt hyx) (le_of_not_lt hxy)
              subst hxyeq
              simp only [lexLeB, if_neg (lt_irrefl x)] at h1
              by_cases hxz : x < z
              · simp [lexLeB, hxz]
              · by_cases hzx : z < x
                · simp [lexLeB, hxz, hzx] at h2
                · have hxzeq : x = z := le_antisymm (le_of_not_lt hzx) (le_of_not_lt hxz)
                  subst hxzeq
                  simp only [lexLeB, if_neg (lt_irrefl x)] at h2 ⊢
                  exact ih ys zs h1 h2
  exact fun p q r h1 h2 => key p.1.data q.1.data r.1.data h1 h2⟩

instance : IsAntisymm (String × PyVal) keyLt := ⟨by
  have key : ∀ (a b : List Char), lexLeB a b = true → lexLeB b a = true → a = b := by
    intro a
    induction a with
    | nil => intro b h1 h2; cases b with
      | nil => rfl
      | cons d ds => simp [lexLeB] at h2
    | cons c cs ih =>
      intro b h1 h2
      cases b with
      | nil => simp [lexLeB] at h1
      | cons d ds =>
        by_cases hcd : c < d
        · simp [lexLeB, hcd, asymm hcd] at h2
        · by_cases hdc : d < c
          · simp [lexLeB, hcd, hdc] at h1
          · have hcdeq : c = d := le_antisymm (le_of_not_lt hdc) (le_of_not_lt hcd)
            subst hcdeq
            simp only [lexLeB, if_neg (lt_irrefl c)] at h1 h2
            rw [ih ds h1 h2]
  intro p q h1 h2
  exact absurd (congrArg String.mk (key p.1.data q.1.data h1.1 h2.1)) h1.2⟩

/-- Modelled from the spec: `ESIRequest.rid` from `eve_tools/ESI/metadata.py`,
a file this snapshot does not provide under src/ (only its importers and its
tests are present).  The spec defines it as "a request identity (derived
deterministically from endpoint key + sorted argument set — used for ETag
lookups)", so the keyword items are sorted by key. -/
def requestRid (endpointKey : String) (kwd : List (String × PyVal)) :
    String × List (String × PyVal) :=
  (endpointKey, kwd.insertionSort keyLe)

/-! ### Conditional (ETag) cache (`eve_tools/ESI/parser.py`,
`ESIRequestParser._get_etag` / `_get_etag_payload` / `_set_etag`) -/

/-- `ETagEntry` from `eve_tools/ESI/parser.py`: an ETag (a Python string or
`None`) and the payload stored beside it. -/
structure ETagVal where
  etag : Option String
  payload : PyVal
deriving DecidableEq

/-- The request-identity type keying the ETag cache. -/
abbrev Rid := String × List (String × PyVal)

/-- `ESIRequestParser._get_etag`: the stored ETag for this request identity,
or `""` when there is no (non-`None`) stored ETag. -/
def get_etag (store : List (Rid × CacheEntry ETagVal)) (now : Int) (rid : Rid) :
    String :=
  match cacheGet store now rid with
  | some e => e.etag.getD ""
  | none => ""

/-- `ESIRequestParser._get_etag_payload`: the payload stored for this request
identity, `none` when no entry exists. -/
def get_etag_payload (store : List (Rid × CacheEntry ETagVal)) (now : Int)
    (rid : Rid) : Option PyVal :=
  match cacheGet store now rid with
  | some e => some e.payload
  | none => none

/-- `ESIRequestParser._set_etag`: stores `ETagEntry(etag, payload)` under the
request identity with a TTL of `24 * 3600 * 7` seconds. -/
def set_etag (store : List (Rid × CacheEntry ETagVal)) (now : Int) (rid : Rid)
    (etag : String) (payload : PyVal) : List (Rid × CacheEntry ETagVal) :=
  cacheSet store rid ⟨some etag, payload⟩ (now + 24 * 3600 * 7)

/-- Transport outcome of a conditional exchange: a full `200` response
carrying a new ETag and payload, or a `304 Not Modified` carrying only the
ETag. -/
inductive WireOutcome where
  | okFull (etag : String) (payload : PyVal)
  | notModified (etag : String)
deriving DecidableEq

/-- Modelled from the spec: the conditional-cache update step of the
orchestrator around `ESI.async_request`.  The `eve_tools/ESI/esi.py` under
src/ predates the wiring of `ESIRequestParser` into the client, so the glue
that consumes `_get_etag_payload` / `_set_etag` is not under src/ (parser.py
only declares those operations).  The spec: "After a successful exchange,
updates the conditional-cache store: a 304 response retrieves the cached
payload by request identity; a 200 response stores the new payload keyed by
request identity with the returned ETag." -/
def conditional_exchange (store : List (Rid × CacheEntry ETagVal)) (now : Int)
    (rid : Rid) (wire : WireOutcome) :
    Option PyVal × List (Rid × CacheEntry ETagVal) :=
  match wire with
  | .okFull etag payload => (some payload, set_etag store now rid etag payload)
  | .notModified _ => (get_etag_payload store now rid, store)

/-! ### Admission checker (`eve_tools/ESI/checker.py`,
`ESIRequestChecker.check_type_id`, and `eve_tools/ESI/utils.py`,
`cache_check_request`) -/

/-- One response of the live confirmatory lookup
(`GET /universe/types/type_id/`): its HTTP status and the `published` field
of its JSON body (`none` when the body has no such field). -/
structure LiveResp where
  status : Nat
  published : Option Bool
deriving DecidableEq

/-- The live-lookup loop inside `check_type_id` (`eve_tools/ESI/checker.py`
lines 139-154): up to 3 attempts, a `502` consumes one attempt without
reading the body, any other status reads the body (counting one live call)
and sets `valid = data.get("published")`; a `200` ends the loop.  The
source loop does not consume attempts on a non-`502`, non-`200` status, so
the model carries explicit fuel and returns `none` when that fuel runs out
(the source would still be looping). -/
def check_type_id_live (live : Nat → LiveResp) :
    Nat → Nat → Nat → Bool → Option Bool → Nat → Option (Option Bool × Nat)
  | 0, _, _, _, _, _ => none
  | _ + 1, _idx, _attempts, true, valid, calls => some (valid, calls)
  | fuel + 1, idx, attempts, false, valid, calls =>
    if attempts = 0 then some (valid, calls)
    else
      let r := live idx
      if r.status = 502 then
        check_type_id_live live fuel (idx + 1) (attempts - 1) false valid calls
      else
        check_type_id_live live fuel (idx + 1) attempts (r.status = 200)
          r.published (calls + 1)

/-- `ESIRequestChecker.check_type_id`, uncached (`eve_tools/ESI/checker.py`
lines 121-155).  `table` is the `invTypes` reference table mapping `typeID`
to its `published` flag.  An absent or unpublished identifier is invalid
without any live call; a published one is confirmed by the live lookup,
whose `published` field becomes the result.  The result mirrors the Python
value: `some b` for a bool, `none` for `None` (a body without `published`),
and the outer `Option` is the explicit-fuel divergence guard of
`check_type_id_live`. -/
def check_type_id (table : List (Nat × Bool)) (live : Nat → LiveResp)
    (fuel : Nat) (type_id : Nat) : Option (Option Bool × Nat) :=
  match table.find? (fun p => p.1 = type_id) with
  | none => some (some false, 0)
  | some p =>
    if p.2 then check_type_id_live live fuel 0 3 false (some true) 0
    else some (some false, 0)

/-- The cache key `cache_check_request` derives for `check_type_id`:
`make_cache_key(func, type_id)` — the identifier value and the function
identity only, with no endpoint component. -/
def check_type_id_key (type_id : Nat) : String × List PyVal × List (String × PyVal) :=
  make_cache_key "ESIRequestChecker.check_type_id" "srcv1" [.int type_id] []

/-- `cache_check_request` applied to `check_type_id` (`eve_tools/ESI/utils.py`
lines 323-339): a cached non-`None` value is returned with no execution;
otherwise the check runs and its result is stored for `24 * 3600 * 30`
seconds.  Returns (result, live calls made, updated cache). -/
def cached_check_type_id
    (cache : List ((String × List PyVal × List (String × PyVal)) × CacheEntry (Option Bool)))
    (now : Int) (table : List (Nat × Bool)) (live : Nat → LiveResp) (fuel : Nat)
    (type_id : Nat) :
    Option ((Option Bool) × Nat ×
      List ((String × List PyVal × List (String × PyVal)) × CacheEntry (Option Bool))) :=
  let key := check_type_id_key type_id
  match cacheGet cache now key with
  | some (some b) => some (some b, 0, cache)
  | _ =>
    match check_type_id table live fuel type_id with
    | none => none
    | some (ret, calls) =>
      some (ret, calls, cacheSet cache key ret (now + 24 * 3600 * 30))

/-! ### Token store (`eve_tools/ESI/token.py`, `ESITokens.refresh`) -/

/-- `Token` from `eve_tools/ESI/token.py`.  `retrieve_time` is compared
numerically against `int(time.time())`. -/
structure Token where
  access_token : String
  retrieve_time : Int
  refresh_token : String
  character_name : String
  character_id : Int
  clientId : String
deriving DecidableEq

/-- Result of the external `refresh_token` OAuth exchange, as classified by
`ESITokens.__check_refresh_token`: either a dict with all of `access_token`,
`retrieve_time`, `refresh_token` and no `error` key, or anything else
(an `error` key or a missing field). -/
inductive RefreshOutcome where
  | ok (access_token : String) (retrieve_time : Int) (refresh_token : String)
  | err
deriving DecidableEq

/-- Which tokens `ESITokens.refresh(cname)` iterates over: all of them when
`cname` is falsy (Python `None` or `""`), otherwise the ones whose
`character_name` equals `cname`. -/
def refreshSelect (cname : Option String) (t : Token) : Bool :=
  match cname with
  | none => true
  | some c => if c = "" then true else t.character_name = c

/-- The refresh loop of `ESITokens.refresh` (`eve_tools/ESI/token.py` lines
154-169) over the token list: a selected token younger than `update_time`
is skipped unchanged; otherwise the external exchange runs, an error
aborts the whole call with `False` leaving that token and every later one
unchanged, and a success updates the token's `access_token`,
`retrieve_time` and `refresh_token` in place. -/
def refreshGo (now update_time : Int) (issuer : String → RefreshOutcome)
    (sel : Token → Bool) : List Token → Bool × List Token
  | [] => (true, [])
  | t :: ts =>
    if sel t then
      if now - t.retrieve_time < update_time then
        let r := refreshGo now update_time issuer sel ts
        (r.1, t :: r.2)
      else
        match issuer t.refresh_token with
        | .err => (false, t :: ts)
        | .ok a rt rf =>
          let r := refreshGo now update_time issuer sel ts
          (r.1, { t with access_token := a, retrieve_time := rt,
                          refresh_token := rf } :: r.2)
    else
      let r := refreshGo now update_time issuer sel ts
      (r.1, t :: r.2)

/-- `ESITokens.refresh` (`eve_tools/ESI/token.py` lines 129-169): raises
`KeyError` when no token matches `cname`, otherwise runs the refresh loop
and returns whether all matching tokens refreshed (with the updated token
list). -/
def ESITokens.refresh (now update_time : Int) (issuer : String → RefreshOutcome)
    (cname : Option String) (tokens : List Token) :
    Except Unit (Bool × List Token) :=
  if (tokens.filter (refreshSelect cname)).isEmpty then .error ()
  else .ok (refreshGo now update_time issuer (refreshSelect cname) tokens)

/-! ### Session record (`eve_tools/ESI/utils.py`, `_SessionRecord` and
`_session_record_fill`) -/

/-- The request counters of `_SessionRecord`.  The `timer` (float seconds)
and `expires` (RFC7231 datetime string) fields are not modelled: the fill
sections guarded by the `"timer"` and `"expires"` field names write only
those two fields and never touch the counters. -/
structure SessionRecord where
  requests : Nat
  requests_failed : Nat
  requests_succeed : Nat
  requests_blocked : Nat
deriving DecidableEq

/-- The counter section of `_session_record_fill` (`eve_tools/ESI/utils.py`
lines 261-291).  `respPresent` is `resp is not None`.  The `requests`
section runs when the `fields`/`exclude` options select it; within it,
`requests` always increments, `requests_blocked` increments when
`resp is None and not failed or blocked`, `requests_failed` when `failed`,
and `requests_succeed` when a response is present and neither failed nor
blocked.  Returns `none` for the `ValueError` raised when a field appears
in both `fields` and `exclude`. -/
def session_record_fill (record : SessionRecord)
    (fields exclude : Option (List String)) (respPresent failed blocked : Bool) :
    Option SessionRecord :=
  match fields, exclude with
  | some fs, some ex =>
    if fs.any (fun f => f ∈ ex) then none
    else some (sessionRecordFillCounters record fs.elem ex.elem respPresent failed blocked)
  | some fs, none =>
    some (sessionRecordFillCounters record fs.elem (fun _ => false) respPresent failed blocked)
  | none, some ex =>
    some (sessionRecordFillCounters record (fun _ => true) ex.elem respPresent failed blocked)
  | none, none =>
    some (sessionRecordFillCounters record (fun _ => true) (fun _ => false) respPresent failed blocked)
where
  sessionRecordFillCounters (record : SessionRecord)
      (inFields inExclude : String → Bool) (respPresent failed blocked : Bool) :
      SessionRecord :=
    if inFields "requests" && !inExclude "requests" then
      let r1 := { record with requests := record.requests + 1 }
      let r2 :=
        if (!respPresent && !failed) || blocked then
          { r1 with requests_blocked := r1.requests_blocked + 1 }
        else r1
      let r3 :=
        if failed then { r2 with requests_failed := r2.requests_failed + 1 }
        else r2
      if respPresent && !failed && !blocked then
        { r3 with requests_succeed := r3.requests_succeed + 1 }
      else r3
    else record

/-- How `_session_recorder_wrapped_async` (the decoration of
`ESI.async_request`, with `exclude="timer"`) terminates one recorded
request: a caught transport error (`TimeoutError` / `ServerDisconnectedError`
re-raised after recording), an `ESIResponseError` from
`resp.raise_for_status()` (a response is present), a `None` return (blocked
request), or a response whose `request_info.blocked` flag is `blocked`. -/
inductive RecordedOutcome where
  | errorCaught
  | statusError
  | completedNone
  | completed (blocked : Bool)
deriving DecidableEq

/-- The `_session_record_fill` invocation `_session_recorder_wrapped_async`
makes for each way a recorded request completes, with the `exclude="timer"`
options of the `ESI.async_request` decoration. -/
def session_recorder_step (record : SessionRecord) (o : RecordedOutcome) :
    Option SessionRecord :=
  match o with
  | .errorCaught => session_record_fill record none (some ["timer"]) false true false
  | .statusError => session_record_fill record none (some ["timer"]) true true false
  | .completedNone => session_record_fill record none (some ["timer"]) false false true
  | .completed b => session_record_fill record none (some ["timer"]) true false b

/-! ## Helper lemmas -/

theorem exhaustDisposition_calls (raises : Option Bool) (g : Int) (ret : Option Resp)
    (calls : Nat) : (exhaustDisposition raises g ret calls).calls = calls := by
  rcases raises with _ | b
  · by_cases h : g ≤ 5
    · simp [exhaustDisposition, h]
    · rcases ret with _ | r <;> simp [exhaustDisposition, h]
  · rcases b <;> rfl

theorem wrapper_retry_loop_suppress (outcomes : Nat → Outcome) :
    ∀ (attempts idx : Nat) (g : Int) (calls : Nat),
      (wrapper_retry_loop (some false) outcomes attempts idx g calls).result ≠
        .raisedErr := by
  intro attempts
  induction attempts with
  | zero => intro idx g calls; simp [wrapper_retry_loop]
  | succ k ih =>
    intro idx g calls
    rcases houtcome : outcomes idx with ⟨s, r⟩ | _ | _ | _
    · by_cases hs : s < 400
      · simp [wrapper_retry_loop, houtcome, hs]
      · by_cases hraise : s ∈ STATUS_RAISE ∨ k = 0
        · simp [wrapper_retry_loop, houtcome, hs, hraise, exhaustDisposition]
        · simpa [wrapper_retry_loop, houtcome, hs, hraise] using ih (idx + 1) (r - 1) (calls + 1)
    · simp [wrapper_retry_loop, houtcome, exhaustDisposition]
    · simp [wrapper_retry_loop, houtcome]
    · by_cases hk : k = 0
      · simp [wrapper_retry_loop, houtcome, hk]
      · simpa [wrapper_retry_loop, houtcome, hk] using ih (idx + 1) g (calls + 1)

/-! ## Claim theorems -/

/-- C1: with the default attempt budget of 3, a response whose status is in
`STATUS_RAISE` (400, 404, 420) makes exactly 1 transport attempt; a
retryable failure status (503) repeated on every attempt makes exactly 3
attempts; a transport timeout makes exactly 1 attempt, all regardless of
the error policy and of the error counters. -/
theorem retry_attempt_counts (raises : Option Bool) (r g : Int) :
    (∀ s, s ∈ STATUS_RAISE →
      (wrapper_retry raises (fun _ => .resp s r) 3 g).calls = 1)
    ∧ (wrapper_retry raises (fun _ => .resp 503 r) 3 g).calls = 3
    ∧ (wrapper_retry raises (fun _ => .transportTimeout) 3 g).calls = 1 := by
  refine ⟨?_, ?_, ?_⟩
  · intro s hs
    have hs400 : ¬ s < 400 := by
      rcases (by simpa [STATUS_RAISE] using hs : s = 400 ∨ s = 404 ∨ s = 420) with h | h | h <;>
        simp [h]
    simp [wrapper_retry, wrapper_retry_loop, hs400, hs, exhaustDisposition_calls]
  · simp [wrapper_retry, wrapper_retry_loop, STATUS_RAISE, exhaustDisposition_calls]
  · rcases raises with _ | b
    · rfl
    · rcases b <;> rfl

/-- C1 witness at a concrete non-retryable status. -/
theorem retry_attempt_counts_witness :
    404 ∈ STATUS_RAISE ∧
      (wrapper_retry none (fun _ => .resp 404 100) 3 100).calls = 1 :=
  ⟨by decide, (retry_attempt_counts none 100 100).1 404 (by decide)⟩

/-- C2: once the attempt budget is exhausted by failing statuses, the final
disposition is the caller's three-valued policy: `raises=True` raises the
stored error; `raises=False` returns `None` (and, first conjunct, a
`raises=False` run never raises whatever the outcomes); `raises=None` raises
when the shared error counter (resynchronised to the last response's
`error_remain` and then decremented) is at most 5, and otherwise returns the
last response object even though its status is a failure. -/
theorem retry_exhaust_disposition (s : Nat) (r g : Int) :
    (∀ (outcomes : Nat → Outcome) (attempts : Nat) (g0 : Int),
      (wrapper_retry (some false) outcomes attempts g0).result ≠ .raisedErr)
    ∧ (400 ≤ s →
      (wrapper_retry (some true) (fun _ => .resp s r) 3 g).result = .raisedErr)
    ∧ (400 ≤ s →
      (wrapper_retry (some false) (fun _ => .resp s r) 3 g).result = .returnedNone)
    ∧ (400 ≤ s → r - 1 ≤ 5 →
      (wrapper_retry none (fun _ => .resp s r) 3 g).result = .raisedErr)
    ∧ (400 ≤ s → 5 < r - 1 →
      (wrapper_retry none (fun _ => .resp s r) 3 g).result =
        .returnedResp ⟨s, r⟩) := by
  refine ⟨fun outcomes attempts g0 => wrapper_retry_loop_suppress outcomes attempts 0 g0 0,
    ?_, ?_, ?_, ?_⟩ <;> intro hs
  all_goals
    have hs400 : ¬ s < 400 := Nat.not_lt.mpr hs
  all_goals by_cases hm : s ∈ STATUS_RAISE
  · simp [wrapper_retry, wrapper_retry_loop, hs400, hm, exhaustDisposition]
  · simp [wrapper_retry, wrapper_retry_loop, hs400, hm, exhaustDisposition]
  · simp [wrapper_retry, wrapper_retry_loop, hs400, hm, exhaustDisposition]
  · simp [wrapper_retry, wrapper_retry_loop, hs400, hm, exhaustDisposition]
  · intro hr
    simp [wrapper_retry, wrapper_retry_loop, hs400, hm, exhaustDisposition, hr]
  · intro hr
    simp [wrapper_retry, wrapper_retry_loop, hs400, hm, exhaustDisposition, hr]
  · intro hr
    simp [wrapper_retry, wrapper_retry_loop, hs400, hm, exhaustDisposition, hr,
      not_le.mpr hr]
  · intro hr
    simp [wrapper_retry, wrapper_retry_loop, hs400, hm, exhaustDisposition, hr,
      not_le.mpr hr]

/-- C2 witness: a persistent 404 with a healthy error budget under the
adaptive policy returns the last failing response. -/
theorem retry_exhaust_disposition_witness :
    (400 ≤ 404 ∧ (5 : Int) < 100 - 1) ∧
      (wrapper_retry none (fun _ => .resp 404 100) 3 50).result =
        .returnedResp ⟨404, 100⟩ :=
  ⟨⟨by decide, by decide⟩,
    (retry_exhaust_disposition 404 100 50).2.2.2.2 (by decide) (by decide)⟩

/-- C7: the method gate accepts exactly the requests whose declared type is
`get` or `head` and whose method matches it (with `head` also accepted where
`get` is declared); any other declared type or method mismatch fails with
the gate's error, and a gate failure leaves `request_pipeline` without a
single transport invocation, so it is never retried. -/
theorem method_gate (declared method : String) :
    (check_method declared method = .ok () ↔
      ((declared = "get" ∨ declared = "head") ∧
        (method = declared ∨ (method = "head" ∧ declared = "get"))))
    ∧ (∀ (e : MethodError) (raises : Option Bool) (outcomes : Nat → Outcome)
        (attempts : Nat) (g : Int),
        check_method declared method = .error e →
          request_pipeline declared method raises outcomes attempts g = .error e) := by
  constructor
  · unfold check_method
    split_ifs with h1 h2 h3
    · exact iff_of_true (by trivial) ⟨h1, Or.inl h2.symm⟩
    · exact iff_of_true (by trivial) ⟨h1, Or.inr h3⟩
    · refine iff_of_false (by simp) (fun h => ?_)
      rcases h.2 with hm | hm
      · exact absurd hm.symm h2
      · exact absurd hm h3
    · exact iff_of_false (by simp) (fun h => h1 h.1)
  · intro e raises outcomes attempts g h
    simp [request_pipeline, h]

/-- C7 witness: a POST against a GET-declared endpoint fails the gate and
reaches zero transport attempts. -/
theorem method_gate_witness :
    check_method "get" "post" = .error .unsupportedMethod ∧
      request_pipeline "get" "post" none (fun _ => Outcome.blockedNone) 3 100 =
        .error .unsupportedMethod :=
  ⟨by decide,
    (method_gate "get" "post").2 .unsupportedMethod none (fun _ => Outcome.blockedNone)
      3 100 (by decide)⟩

/-- C6: for a path parameter named `character_id`, when an authenticated
token supplies a positive character id and the caller omits the parameter,
the token's id is used; when the caller supplies it, the caller's value
wins. -/
theorem path_character_id (kwd : List (String × PyVal)) (cid : Int)
    (hcid : 0 < cid) :
    (lookupKey kwd "character_id" = none →
      parse_request_keywords_in_path kwd "character_id" cid = .ok (.int cid))
    ∧ (∀ v, lookupKey kwd "character_id" = some v → v ≠ .vnone →
      parse_request_keywords_in_path kwd "character_id" cid = .ok v) := by
  constructor
  · intro habsent
    simp [parse_request_keywords_in_path, habsent, hcid]
  · intro v hfound hv
    simp [parse_request_keywords_in_path, hfound, pyGetOrNone, hv]

/-- C6 witness: the token id fills an omitted `character_id` and an explicit
one overrides it. -/
theorem path_character_id_witness :
    parse_request_keywords_in_path [] "character_id" 99 = .ok (.int 99) ∧
      parse_request_keywords_in_path [("character_id", .int 7)] "character_id" 99 =
        .ok (.int 7) :=
  ⟨(path_character_id [] 99 (by decide)).1 (by decide),
    (path_character_id [("character_id", .int 7)] 99 (by decide)).2 (.int 7)
      (by decide) (by decide)⟩

/-- C5 counterexample: supplying the same query parameter both as a direct
keyword and inside the `params` dict does not raise the duplicate error when
the values are falsy (here `0`): the call succeeds with the keyword value,
because the source tests `if value and value2` with Python truthiness. -/
theorem query_duplicate_counterexample :
    parse_request_keywords_in_query [("page", .int 0)] [("page", .int 0)] "page"
        true .vnone = .ok (.int 0) ∧
      parse_request_keywords_in_query [("page", .int 0)] [("page", .int 0)] "page"
        true .vnone ≠ .error (.duplicateKey "page") := by
  constructor
  · rfl
  · decide

/-- C5 as amended: the duplicate error is raised exactly when both the
direct keyword value and the `params` value are truthy; with neither value
supplied, a required parameter without declared default is a missing-key
error and otherwise the declared default is returned; a supplied (non-`None`)
keyword value wins whenever no duplicate error fires, and a `params`-only
value is used when the keyword value is absent. -/
theorem query_param_resolution (kwd params : List (String × PyVal)) (key : String)
    (required : Bool) (default : PyVal) :
    ((pyGetOrNone kwd key).truthy = true →
      (queryParamsValue params key).truthy = true →
      parse_request_keywords_in_query kwd params key required default =
        .error (.duplicateKey key))
    ∧ (pyGetOrNone kwd key = .vnone → queryParamsValue params key = .vnone →
      required = true → default = .vnone →
      parse_request_keywords_in_query kwd params key required default =
        .error (.missingKey key))
    ∧ (pyGetOrNone kwd key = .vnone → queryParamsValue params key = .vnone →
      ¬(required = true ∧ default = .vnone) →
      parse_request_keywords_in_query kwd params key required default = .ok default)
    ∧ (pyGetOrNone kwd key ≠ .vnone →
      ¬((pyGetOrNone kwd key).truthy = true ∧
        (queryParamsValue params key).truthy = true) →
      parse_request_keywords_in_query kwd params key required default =
        .ok (pyGetOrNone kwd key))
    ∧ (pyGetOrNone kwd key = .vnone → queryParamsValue params key ≠ .vnone →
      parse_request_keywords_in_query kwd params key required default =
        .ok (queryParamsValue params key)) := by
  simp only [parse_request_keywords_in_query]
  set v := pyGetOrNone kwd key with hv
  set w := queryParamsValue params key with hw
  refine ⟨?_, ?_, ?_, ?_, ?_⟩
  · intro h1 h2
    rw [if_pos ⟨h1, h2⟩]
  · intro h1 h2 h3 h4
    rw [if_neg, if_pos ⟨h1, h2, h3, h4⟩]
    intro hc
    rw [h1] at hc
    exact absurd hc.1 (by simp [PyVal.truthy])
  · intro h1 h2 h3
    rw [if_neg, if_neg, if_pos ⟨h1, h2⟩]
    · intro hc
      exact h3 ⟨hc.2.2.1, hc.2.2.2⟩
    · intro hc
      rw [h1] at hc
      exact absurd hc.1 (by simp [PyVal.truthy])
  · intro h1 h2
    rw [if_neg h2, if_neg, if_neg, if_pos h1]
    · intro hc
      exact absurd hc.1 h1
    · intro hc
      exact absurd hc.1 h1
  · intro h1 h2
    rw [if_neg, if_neg, if_neg, if_neg]
    · intro hc
      exact absurd h1 hc
    · intro hc
      exact absurd hc.2 h2
    · intro hc
      exact absurd hc.2.1 h2
    · intro hc
      rw [h1] at hc
      exact absurd hc.1 (by simp [PyVal.truthy])

/-- C5 amended-claim witness: a truthy duplicate raises, a missing required
parameter raises, and a declared default fills an omitted parameter. -/
theorem query_param_resolution_witness :
    parse_request_keywords_in_query [("page", .int 1)] [("page", .int 2)] "page"
        true .vnone = .error (.duplicateKey "page") ∧
      parse_request_keywords_in_query [] [] "page" true .vnone =
        .error (.missingKey "page") ∧
      parse_request_keywords_in_query [] [] "order_type" false (.str "all") =
        .ok (.str "all") :=
  ⟨(query_param_resolution [("page", .int 1)] [("page", .int 2)] "page" true
      .vnone).1 (by decide) (by decide),
    (query_param_resolution [] [] "page" true .vnone).2.1 (by decide) (by decide)
      rfl rfl,
    by
      have h := (query_param_resolution [] [] "order_type" false (.str "all")).2.2.1
        (by decide) (by decide) (by decide)
      exact h⟩

/-- C10: every recorded completion of a request increments `requests` by one
and exactly one of `requests_failed`, `requests_succeed`, `requests_blocked`
by one, leaving the other two unchanged. -/
theorem session_record_partition (record : SessionRecord) (o : RecordedOutcome) :
    session_recorder_step record o =
        some { record with requests := record.requests + 1,
                           requests_failed := record.requests_failed + 1 }
      ∨ session_recorder_step record o =
        some { record with requests := record.requests + 1,
                           requests_succeed := record.requests_succeed + 1 }
      ∨ session_recorder_step record o =
        some { record with requests := record.requests + 1,
                           requests_blocked := record.requests_blocked + 1 } := by
  rcases o with _ | _ | _ | b
  · left
    simp [session_recorder_step, session_record_fill,
      session_record_fill.sessionRecordFillCounters]
  · left
    simp [session_recorder_step, session_record_fill,
      session_record_fill.sessionRecordFillCounters]
  · right; right
    simp [session_recorder_step, session_record_fill,
      session_record_fill.sessionRecordFillCounters]
  · rcases b
    · right; left
      simp [session_recorder_step, session_record_fill,
        session_record_fill.sessionRecordFillCounters]
    · right; right
      simp [session_recorder_step, session_record_fill,
        session_record_fill.sessionRecordFillCounters]

theorem refreshGo_fresh (now upd : Int) (issuer : String → RefreshOutcome)
    (sel : Token → Bool) :
    ∀ l : List Token, (∀ t ∈ l, sel t = true → now - t.retrieve_time < upd) →
      refreshGo now upd issuer sel l = (true, l) := by
  intro l
  induction l with
  | nil => intro _; rfl
  | cons t ts ih =>
    intro h
    by_cases hsel : sel t = true
    · have hfresh := h t (List.mem_cons_self t ts) hsel
      simp [refreshGo, hsel, hfresh,
        ih (fun u hu hs => h u (List.mem_cons_of_mem t hu) hs)]
    · simp [refreshGo, hsel,
        ih (fun u hu hs => h u (List.mem_cons_of_mem t hu) hs)]

theorem refreshGo_err (now upd : Int) (issuer : String → RefreshOutcome)
    (sel : Token → Bool) (t : Token) (ts2 : List Token)
    (ht : sel t = true) (hstale : ¬ now - t.retrieve_time < upd)
    (herr : issuer t.refresh_token = .err) :
    ∀ ts1 : List Token, (∀ u ∈ ts1, sel u = true → now - u.retrieve_time < upd) →
      refreshGo now upd issuer sel (ts1 ++ t :: ts2) =
        (false, ts1 ++ t :: ts2) := by
  intro ts1
  induction ts1 with
  | nil =>
    intro _
    simp [refreshGo, ht, hstale, herr]
  | cons u us ih =>
    intro h
    by_cases hsel : sel u = true
    · have hfresh := h u (List.mem_cons_self u us) hsel
      simp [refreshGo, hsel, hfresh,
        ih (fun w hw hs => h w (List.mem_cons_of_mem u hw) hs)]
    · simp [refreshGo, hsel,
        ih (fun w hw hs => h w (List.mem_cons_of_mem u hw) hs)]

/-- C8: a refresh call whose matching tokens are all younger than the
threshold skips every one of them, changes nothing and returns `True`; and
when the external issuer reports an error for the first stale matching
token, refresh returns `False` and the token being refreshed (and every
other token) keeps its previous `access_token`, `refresh_token` and
`retrieve_time`. -/
theorem token_refresh_policy (now upd : Int) (issuer : String → RefreshOutcome)
    (cname : Option String) (tokens : List Token) :
    ((∃ t ∈ tokens, refreshSelect cname t = true) →
      (∀ t ∈ tokens, refreshSelect cname t = true → now - t.retrieve_time < upd) →
      ESITokens.refresh now upd issuer cname tokens = .ok (true, tokens))
    ∧ (∀ (ts1 : List Token) (t : Token) (ts2 : List Token),
      tokens = ts1 ++ t :: ts2 →
      (∀ u ∈ ts1, refreshSelect cname u = true → now - u.retrieve_time < upd) →
      refreshSelect cname t = true → ¬ now - t.retrieve_time < upd →
      issuer t.refresh_token = .err →
      ESITokens.refresh now upd issuer cname tokens = .ok (false, tokens)) := by
  constructor
  · rintro ⟨t, ht, hsel⟩ hfresh
    have hne : tokens.filter (refreshSelect cname) ≠ [] :=
      List.ne_nil_of_mem (List.mem_filter.mpr ⟨ht, hsel⟩)
    rw [ESITokens.refresh, if_neg (by simpa [List.isEmpty_iff] using hne)]
    rw [refreshGo_fresh now upd issuer (refreshSelect cname) tokens hfresh]
  · intro ts1 t ts2 hsplit hfreshPre hsel hstale herr
    subst hsplit
    have ht : t ∈ ts1 ++ t :: ts2 := List.mem_append_right ts1 (List.mem_cons_self t ts2)
    have hne : (ts1 ++ t :: ts2).filter (refreshSelect cname) ≠ [] :=
      List.ne_nil_of_mem (List.mem_filter.mpr ⟨ht, hsel⟩)
    rw [ESITokens.refresh, if_neg (by simpa [List.isEmpty_iff] using hne)]
    rw [refreshGo_err now upd issuer (refreshSelect cname) t ts2 hsel hstale herr
      ts1 hfreshPre]

/-- C8 witness: one fresh token is skipped with `True`, and the same token
past the threshold with a failing issuer yields `False` with the token
unchanged. -/
theorem token_refresh_policy_witness :
    ESITokens.refresh 1000 1198 (fun _ => .err) (some "c")
        [⟨"at", 900, "rt", "c", 1, "app"⟩] =
      .ok (true, [⟨"at", 900, "rt", "c", 1, "app"⟩]) ∧
    ESITokens.refresh 3000 1198 (fun _ => .err) (some "c")
        [⟨"at", 900, "rt", "c", 1, "app"⟩] =
      .ok (false, [⟨"at", 900, "rt", "c", 1, "app"⟩]) :=
  ⟨(token_refresh_policy 1000 1198 (fun _ => .err) (some "c")
      [⟨"at", 900, "rt", "c", 1, "app"⟩]).1
      ⟨⟨"at", 900, "rt", "c", 1, "app"⟩, by decide, by decide⟩ (by decide),
    (token_refresh_policy 3000 1198 (fun _ => .err) (some "c")
      [⟨"at", 900, "rt", "c", 1, "app"⟩]).2 [] ⟨"at", 900, "rt", "c", 1, "app"⟩ []
      rfl (by intro u hu; cases hu) (by decide) (by decide) rfl⟩

/-- C3: an identifier absent from the reference table, or present but
unpublished, is rejected with zero live lookups; a published identifier is
confirmed — against a live endpoint answering 200 with a `published` field —
by exactly one live lookup whose `published` field is the result, the
result is cached under a key containing only the function identity and the
identifier (no endpoint component), and a second check of the same
identifier within the one-month TTL makes zero live lookups. -/
theorem checker_admission (table : List (Nat × Bool)) (live : Nat → LiveResp)
    (fuel : Nat) (type_id : Nat) (now now2 : Int) (pub : Bool) :
    (table.find? (fun p => p.1 = type_id) = none →
      cached_check_type_id [] now table live fuel type_id =
        some (some false, 0,
          cacheSet [] (check_type_id_key type_id) (some false) (now + 24 * 3600 * 30)))
    ∧ (table.find? (fun p => p.1 = type_id) = some (type_id, false) →
      cached_check_type_id [] now table live fuel type_id =
        some (some false, 0,
          cacheSet [] (check_type_id_key type_id) (some false) (now + 24 * 3600 * 30)))
    ∧ (table.find? (fun p => p.1 = type_id) = some (type_id, true) →
      live 0 = ⟨200, some pub⟩ →
      now2 ≤ now + 24 * 3600 * 30 →
      cached_check_type_id [] now table live (fuel + 2) type_id =
        some (some pub, 1,
          cacheSet [] (check_type_id_key type_id) (some pub) (now + 24 * 3600 * 30)) ∧
      cached_check_type_id
          (cacheSet [] (check_type_id_key type_id) (some pub) (now + 24 * 3600 * 30))
          now2 table live (fuel + 2) type_id =
        some (some pub, 0,
          cacheSet [] (check_type_id_key type_id) (some pub) (now + 24 * 3600 * 30))) := by
  refine ⟨?_, ?_, ?_⟩
  · intro habsent
    simp [cached_check_type_id, check_type_id, habsent, cacheGet]
  · intro hunpub
    simp [cached_check_type_id, check_type_id, hunpub, cacheGet]
  · intro hpub hlive httl
    have hloop : check_type_id_live live (fuel + 2) 0 3 false (some true) 0 =
        some (some pub, 1) := by
      have hstep : fuel + 2 = (fuel + 1) + 1 := rfl
      rw [hstep]
      simp [check_type_id_live, hlive]
    constructor
    · rw [cached_check_type_id]
      simp only [cacheGet, List.find?_nil]
      rw [check_type_id, hpub]
      simp [hloop]
    · rw [cached_check_type_id]
      simp [cacheGet, cacheSet, List.find?, show ¬ now + 2592000 < now2 by omega]

/-- C3 witness: type 34 published in the table, confirmed once by a 200
response, then served from the cache. -/
theorem checker_admission_witness :
    ([(34, true)] : List (Nat × Bool)).find? (fun p => p.1 = 34) = some (34, true) ∧
      cached_check_type_id [] 0 [(34, true)] (fun _ => ⟨200, some true⟩) 7 34 =
        some (some true, 1,
          cacheSet [] (check_type_id_key 34) (some true) (0 + 24 * 3600 * 30)) ∧
      cached_check_type_id
          (cacheSet [] (check_type_id_key 34) (some true) (0 + 24 * 3600 * 30))
          100 [(34, true)] (fun _ => ⟨200, some true⟩) 7 34 =
        some (some true, 0,
          cacheSet [] (check_type_id_key 34) (some true) (0 + 24 * 3600 * 30)) := by
  have h := (checker_admission [(34, true)] (fun _ => ⟨200, some true⟩) 5 34 0 100
    true).2.2 (by decide) rfl (by decide)
  exact ⟨by decide, h.1, h.2⟩

/-- C4: after a 200 response stores payload `p` under ETag `e` for a request
identity, the stored ETag and payload are retrievable by that identity
within the seven-day TTL, and a second identical call whose transport
outcome is a 304 with that ETag returns a payload equal to `p` from the
local cache (the 304 wire outcome carries no payload), leaving the store
unchanged. -/
theorem etag_round_trip (store : List (Rid × CacheEntry ETagVal)) (now now2 : Int)
    (rid : Rid) (e : String) (p : PyVal) (httl : now2 ≤ now + 24 * 3600 * 7) :
    (conditional_exchange store now rid (.okFull e p)).1 = some p
    ∧ get_etag (conditional_exchange store now rid (.okFull e p)).2 now2 rid = e
    ∧ get_etag_payload (conditional_exchange store now rid (.okFull e p)).2 now2 rid =
        some p
    ∧ conditional_exchange (conditional_exchange store now rid (.okFull e p)).2 now2
        rid (.notModified e) =
      (some p, (conditional_exchange store now rid (.okFull e p)).2) := by
  refine ⟨rfl, ?_, ?_, ?_⟩ <;>
    simp [conditional_exchange, get_etag, get_etag_payload, set_etag, cacheSet,
      cacheGet, List.find?, show ¬ now + 604800 < now2 by omega]

/-- C4 witness: a concrete 200-then-304 round trip through the ETag cache. -/
theorem etag_round_trip_witness :
    conditional_exchange
        (conditional_exchange [] 0 (requestRid "/markets/" [("page", .int 1)])
          (.okFull "E1" (.int 5))).2
        100 (requestRid "/markets/" [("page", .int 1)]) (.notModified "E1") =
      (some (.int 5),
        (conditional_exchange [] 0 (requestRid "/markets/" [("page", .int 1)])
          (.okFull "E1" (.int 5))).2) :=
  (etag_round_trip [] 0 100 (requestRid "/markets/" [("page", .int 1)]) "E1"
    (.int 5) (by decide)).2.2.2

theorem lookupKey_eq_none (l : List (String × PyVal)) (s : String) :
    lookupKey l s = none ↔ ∀ q ∈ l, q.1 ≠ s := by
  induction l with
  | nil => simp [lookupKey]
  | cons p rest ih =>
    by_cases h : p.1 = s
    · simp [lookupKey, h]
    · simp [lookupKey, h, ih]

theorem mem_of_lookupKey {l : List (String × PyVal)} {s : String} {v : PyVal}
    (h : lookupKey l s = some v) : (s, v) ∈ l := by
  induction l with
  | nil => simp [lookupKey] at h
  | cons p rest ih =>
    by_cases hh : p.1 = s
    · rw [lookupKey, if_pos hh] at h
      rcases p with ⟨a, b⟩
      have hv : b = v := by injection h
      subst hv
      subst hh
      exact List.mem_cons_self _ rest
    · rw [lookupKey, if_neg hh] at h
      exact List.mem_cons_of_mem p (ih h)

theorem lookupKey_of_mem {l : List (String × PyVal)} {s : String} {v : PyVal}
    (hnd : nodupKeysB l = true) (h : (s, v) ∈ l) : lookupKey l s = some v := by
  induction l with
  | nil => cases h
  | cons p rest ih =>
    rw [nodupKeysB, Bool.and_eq_true] at hnd
    rcases List.mem_cons.mp h with heq | hmem
    · subst heq
      simp [lookupKey]
    · by_cases hh : p.1 = s
      · exfalso
        have := ih hnd.2 hmem
        rw [hh] at hnd
        rw [this] at hnd
        simp at hnd
      · rw [lookupKey, if_neg hh]
        exact ih hnd.2 hmem

theorem pairwise_of_nodupKeysB {l : List (String × PyVal)}
    (h : nodupKeysB l = true) : l.Pairwise (fun p q => p.1 ≠ q.1) := by
  induction l with
  | nil => exact List.Pairwise.nil
  | cons p rest ih =>
    rw [nodupKeysB, Bool.and_eq_true] at h
    refine List.Pairwise.cons ?_ (ih h.2)
    intro q hq heq
    have hnone := (Option.isNone_iff_eq_none.mp h.1)
    exact ((lookupKey_eq_none rest p.1).mp hnone q hq) (heq ▸ rfl)

theorem nodup_of_nodupKeysB {l : List (String × PyVal)}
    (h : nodupKeysB l = true) : l.Nodup :=
  (pairwise_of_nodupKeysB h).imp fun hne heq => hne (by rw [heq])

theorem perm_of_eqAsMaps {l1 l2 : List (String × PyVal)}
    (h : eqAsMaps l1 l2 = true) : l1.Perm l2 := by
  rw [eqAsMaps, Bool.and_eq_true, Bool.and_eq_true, Bool.and_eq_true] at h
  rcases h with ⟨⟨⟨hnd1, hnd2⟩, hall1⟩, hall2⟩
  refine (List.perm_ext_iff_of_nodup (nodup_of_nodupKeysB hnd1)
    (nodup_of_nodupKeysB hnd2)).mpr fun a => ⟨fun ha => ?_, fun ha => ?_⟩
  · have := List.all_eq_true.mp hall1 a ha
    exact mem_of_lookupKey (by simpa using this)
  · have := List.all_eq_true.mp hall2 a ha
    exact mem_of_lookupKey (by simpa using this)

theorem insertionSort_keyLe_eq_of_perm {l1 l2 : List (String × PyVal)}
    (hperm : l1.Perm l2) (hnd : l1.Pairwise (fun p q => p.1 ≠ q.1)) :
    l1.insertionSort keyLe = l2.insertionSort keyLe := by
  have hsymm : ∀ {p q : String × PyVal}, p.1 ≠ q.1 → q.1 ≠ p.1 :=
    fun h e => h e.symm
  have hnd1 : (l1.insertionSort keyLe).Pairwise (fun p q => p.1 ≠ q.1) :=
    ((List.perm_insertionSort keyLe l1).pairwise_iff hsymm).mpr hnd
  have hnd2 : (l2.insertionSort keyLe).Pairwise (fun p q => p.1 ≠ q.1) :=
    ((List.perm_insertionSort keyLe l2).pairwise_iff hsymm).mpr
      ((hperm.pairwise_iff hsymm).mp hnd)
  have hs1 : List.Sorted keyLt (l1.insertionSort keyLe) :=
    ((List.sorted_insertionSort keyLe l1).and hnd1).imp fun hc => ⟨hc.1, hc.2⟩
  have hs2 : List.Sorted keyLt (l2.insertionSort keyLe) :=
    ((List.sorted_insertionSort keyLe l2).and hnd2).imp fun hc => ⟨hc.1, hc.2⟩
  exact List.eq_of_perm_of_sorted
    (((List.perm_insertionSort keyLe l1).trans hperm).trans
      (List.perm_insertionSort keyLe l2).symm) hs1 hs2

/-- C9 counterexample: two calls whose keyword arguments are equal as maps
but were given in a different order produce different cache keys — the
keyword dict is pickled in insertion order by `make_cache_key`, so the
derived key differs even though the claim requires it to be equal. -/
theorem cache_key_order_counterexample :
    eqAsMaps [("a", .int 1), ("b", .int 2)] [("b", .int 2), ("a", .int 1)] = true ∧
      make_cache_key "f" "src" [] [("a", .int 1), ("b", .int 2)] ≠
        make_cache_key "f" "src" [] [("b", .int 2), ("a", .int 1)] := by
  constructor
  · decide
  · decide

/-- C9 as amended: for two calls with the same function identity, the same
positional arguments, and keyword-argument sets equal as maps, the request
identity used for ETag lookup is equal (its argument set is sorted by key),
while the derived cache key serialises keyword arguments in insertion order
and so is only guaranteed equal when the order also matches. -/
theorem cache_key_identity (funcQualname funcSrcHash : String) (args : List PyVal)
    (endpointKey : String) (k1 k2 : List (String × PyVal))
    (h : eqAsMaps k1 k2 = true) :
    requestRid endpointKey k1 = requestRid endpointKey k2
    ∧ (k1 = k2 →
      make_cache_key funcQualname funcSrcHash args k1 =
        make_cache_key funcQualname funcSrcHash args k2) := by
  constructor
  · have hnd1 : nodupKeysB k1 = true := by
      rw [eqAsMaps] at h
      simp only [Bool.and_eq_true] at h
      exact h.1.1.1
    rw [requestRid, requestRid,
      insertionSort_keyLe_eq_of_perm (perm_of_eqAsMaps h) (pairwise_of_nodupKeysB hnd1)]
  · intro heq
    rw [heq]

/-- C9 amended-claim witness: order-swapped keyword maps give the same
request identity, and identical keyword lists give the same cache key. -/
theorem cache_key_identity_witness :
    eqAsMaps [("a", .int 1), ("b", .int 2)] [("b", .int 2), ("a", .int 1)] = true ∧
      requestRid "/markets/" [("a", .int 1), ("b", .int 2)] =
        requestRid "/markets/" [("b", .int 2), ("a", .int 1)] :=
  ⟨by decide,
    (cache_key_identity "f" "src" [] "/markets/" [("a", .int 1), ("b", .int 2)]
      [("b", .int 2), ("a", .int 1)] (by decide)).1⟩

end EveTools
